import Mathlib

/-!
Shallow embedding of the discovery / deduplication / caption-resolution
engine of the Telegram-to-X poster (`src/index.js`, class
`TelegramToXPoster`).  Pure computations are translated to Lean
functions; the stateful scanner is explicit state passing over a
`ScanState`; the external collaborators (Telegram page fetch, context
fetch, OpenAI ranking call) are oracle parameters, since the engine only
observes their results.
-/

namespace TelegramToXPoster

/-! ### JavaScript string primitives

The source relies on `String.prototype.includes`, `trim`, `startsWith`,
`endsWith` and `slice(1, -1)`.  They are modelled structurally over the
character list of the string so that every definition evaluates by
kernel reduction.
-/

/-- JS `String.prototype.trim` on the common whitespace characters:
drop leading and trailing whitespace. -/
def isWS (c : Char) : Bool :=
  c == ' ' || c == '\t' || c == '\n' || c == '\r'

/-- Trim both ends of a string (models JS `trim()`). -/
def jsTrim (s : String) : String :=
  String.mk (((s.data.dropWhile isWS).reverse.dropWhile isWS).reverse)

/-- Does list `s` start with list `p`? -/
def listStartsWith : List Char → List Char → Bool
  | _, [] => true
  | [], _ :: _ => false
  | a :: s, b :: p => a == b && listStartsWith s p

/-- Does list `s` contain `p` as a contiguous sublist? -/
def listHasSub (p : List Char) : List Char → Bool
  | [] => listStartsWith [] p
  | a :: rest => listStartsWith (a :: rest) p || listHasSub p rest

/-- JS `s.includes(pat)`: substring occurrence (the empty pattern always
occurs). -/
def strIncludes (s pat : String) : Bool :=
  listHasSub pat.data s.data

/-- The double-quote character. -/
def dq : Char := Char.ofNat 34

/-- The single-quote character. -/
def sq : Char := Char.ofNat 39

/-- Does the string start with character `c`? -/
def strStartsWithChar (s : String) (c : Char) : Bool :=
  match s.data with
  | [] => false
  | a :: _ => a == c

/-- Does the string end with character `c`? -/
def strEndsWithChar (s : String) (c : Char) : Bool :=
  match s.data.getLast? with
  | some a => a == c
  | none => false

/-- Quote cleanup applied to every OpenAI reply (`index.js` lines
481-487 and 563-569): if the reply starts and ends with a double quote,
or starts and ends with a single quote, take `slice(1, -1)` and trim
it; otherwise keep the reply unchanged. -/
def stripQuotes (s : String) : String :=
  if (strStartsWithChar s dq && strEndsWithChar s dq) ||
      (strStartsWithChar s sq && strEndsWithChar s sq) then
    jsTrim (String.mk ((s.data.drop 1).dropLast))
  else s

/-! ### Data model -/

/-- The `peerId` object of a Telegram message: at most one of the three
identifier fields is meaningful, each may be absent. -/
structure PeerRef where
  channelId : Option Nat
  chatId : Option Nat
  userId : Option Nat
deriving DecidableEq, Repr

/-- The `video` attachment of a message: byte size and duration. -/
structure VideoMeta where
  size : Nat
  duration : Nat
deriving DecidableEq, Repr

/-- A Telegram message as the engine reads it: peer, id, unix date,
optional video attachment, optional text (`message.message`), optional
sender id. -/
structure Message where
  peerId : Option PeerRef
  id : Int
  date : Int
  video : Option VideoMeta
  message : Option String
  senderId : Option Int
deriving DecidableEq, Repr

/-- JS `a || b` on possibly-absent numbers: keep `a` when it is present
and truthy (nonzero), otherwise fall through to `b`. -/
def jsOrNat (a b : Option Nat) : Option Nat :=
  match a with
  | some n => if n = 0 then b else some n
  | none => b

/-- `generateVideoId` (`index.js` lines 267-282): the fingerprint string
`peerId_messageId_date_videoSize_videoDuration`, where the peer part
falls back through `channelId || chatId || userId || "unknown"` and the
video size and duration fall back to `0` when the video object or the
field is absent. -/
def generateVideoId (m : Message) : String :=
  let peerId : String :=
    match jsOrNat (jsOrNat (m.peerId.bind PeerRef.channelId)
        (m.peerId.bind PeerRef.chatId)) (m.peerId.bind PeerRef.userId) with
    | some n => toString n
    | none => "unknown"
  let messageId := m.id
  let date := m.date
  let videoSize : Nat := match m.video with | some v => v.size | none => 0
  let videoDuration : Nat := match m.video with | some v => v.duration | none => 0
  peerId ++ "_" ++ toString messageId ++ "_" ++ toString date ++ "_" ++
    toString videoSize ++ "_" ++ toString videoDuration

/-- Spec-side accessor: the size component the fingerprint uses
(`message.video?.size || 0`). -/
def videoSizeOf (m : Message) : Nat :=
  match m.video with | some v => v.size | none => 0

/-- Spec-side accessor: the duration component the fingerprint uses
(`message.video?.duration || 0`). -/
def videoDurationOf (m : Message) : Nat :=
  match m.video with | some v => v.duration | none => 0

/-- Spec-side accessor: the peer component of the fingerprint. -/
def peerIdStrOf (m : Message) : String :=
  match jsOrNat (jsOrNat (m.peerId.bind PeerRef.channelId)
      (m.peerId.bind PeerRef.chatId)) (m.peerId.bind PeerRef.userId) with
  | some n => toString n
  | none => "unknown"

/-! ### Failed-video set -/

/-- One entry of the in-memory `failedVideos` set of strings.  An entry
is either a legacy bare fingerprint (a string on which `JSON.parse`
throws — fingerprints contain underscores between the numeric fields,
so they are never valid JSON) or a JSON-encoded failure record with the
fields written by `addFailedVideo`. -/
inductive FailedEntry where
  | legacy (videoId : String)
  | record (videoId : String) (reason : String) (timestamp : String)
      (error : Option String)
deriving DecidableEq, Repr

/-- The per-entry test of `isVideoFailed` (`index.js` lines 249-265):
parse the entry as JSON and compare its `videoId` field, or — when the
parse throws, i.e. for a legacy bare entry — compare the whole entry
string. -/
def entryMatches (videoId : String) : FailedEntry → Bool
  | .legacy vid => vid == videoId
  | .record vid _ _ _ => vid == videoId

/-- `isVideoFailed` (`index.js` lines 249-265): does any stored entry
refer to this fingerprint, in either encoding? -/
def isVideoFailed (failedVideos : List FailedEntry) (videoId : String) : Bool :=
  failedVideos.any (entryMatches videoId)

/-- `addFailedVideo` (`index.js` lines 236-247): append one structured
failure record (videoId, reason, ISO timestamp, optional raw error
message) to the failed set. -/
def addFailedVideo (failedVideos : List FailedEntry)
    (videoId reason timestamp : String) (error : Option String) :
    List FailedEntry :=
  FailedEntry.record videoId reason timestamp error :: failedVideos

/-! ### On-disk state files -/

/-- The parsed content of a processed/failed state file: either the
legacy shape (a bare JSON array) or the structured shape (an object with
metadata and an optional `videos` field). -/
inductive StoredFile (α : Type) where
  | legacyArr (videos : List α)
  | structured (lastUpdated : String) (totalCount : Nat)
      (videos : Option (List α))

/-- `loadProcessedVideos` (`index.js` lines 114-139): a missing or
unreadable file (`none`) yields the empty set; a legacy bare array
yields its elements; a structured object yields its `videos` field or
the empty set when that field is absent. -/
def loadProcessedVideos : Option (StoredFile String) → List String
  | none => []
  | some (.legacyArr vs) => vs
  | some (.structured _ _ vs) => vs.getD []

/-- `loadFailedVideos` (`index.js` lines 193-216): same normalization as
`loadProcessedVideos`, over failed-set entries. -/
def loadFailedVideos : Option (StoredFile FailedEntry) → List FailedEntry
  | none => []
  | some (.legacyArr vs) => vs
  | some (.structured _ _ vs) => vs.getD []

/-! ### Batch scanner -/

/-- The engine's mutable state: the processed-fingerprint set, the
failed set, and the scan cursor. -/
structure ScanState where
  processedVideos : List String
  failedVideos : List FailedEntry
  currentOffset : Nat
deriving DecidableEq, Repr

/-- The page size of `findOldestUnprocessedVideo`
(`const batchSize = 50`, `index.js` line 291). -/
def batchSize : Nat := 50

/-- `saveOffset` (`index.js` lines 177-191): persist and adopt the new
cursor offset. -/
def saveOffset (st : ScanState) (newOffset : Nat) : ScanState :=
  { st with currentOffset := newOffset }

/-- The dedup filter of the scan loop (`index.js` lines 305-311): a
candidate is unresolved when its fingerprint is in neither the
processed set nor the failed set. -/
def isUnresolved (st : ScanState) (m : Message) : Bool :=
  let videoId := generateVideoId m
  !(st.processedVideos.contains videoId) &&
    !(isVideoFailed st.failedVideos videoId)

/-- `findOldestUnprocessedVideo` (`index.js` lines 284-355): scan the
fetched page (oldest first) and return the first unresolved candidate;
when the whole page is resolved, return `null` and advance the persisted
offset by `batchSize`. -/
def findOldestUnprocessedVideo (st : ScanState) (page : List Message) :
    Option Message × ScanState :=
  match page.find? (isUnresolved st) with
  | some m => (some m, st)
  | none => (none, saveOffset st (st.currentOffset + batchSize))

/-- One state-mutating operation of the engine: a scan over a fetched
page, marking a fingerprint processed (`run`, line 715), or recording a
failure (`run`, line 759). -/
inductive EngineOp where
  | scan (page : List Message)
  | markProcessed (videoId : String)
  | markFailed (videoId reason timestamp : String) (error : Option String)

/-- Apply one engine operation to the state. -/
def applyOp (st : ScanState) : EngineOp → ScanState
  | .scan page => (findOldestUnprocessedVideo st page).2
  | .markProcessed vid => { st with processedVideos := vid :: st.processedVideos }
  | .markFailed vid r ts e =>
      { st with failedVideos := addFailedVideo st.failedVideos vid r ts e }

/-! ### Context window and caption resolution -/

/-- One entry of the context window built by `extractVideoCaption`
(`index.js` lines 397-404). -/
structure ContextMessage where
  id : Int
  text : String
  senderId : Option Int
  date : Int
  position : String
  timeDiff : Nat
deriving DecidableEq, Repr

/-- The mapping step of the window builder (`index.js` lines 397-404):
annotate a surrounding message with its position relative to the
candidate and the absolute time delta. -/
def toContextMessage (videoMessage msg : Message) (text : String) :
    ContextMessage :=
  { id := msg.id
    text := jsTrim text
    senderId := msg.senderId
    date := msg.date
    position := if msg.id < videoMessage.id then "before" else "after"
    timeDiff := (videoMessage.date - msg.date).natAbs }

/-- Stable insertion of a context message into an id-sorted list; models
one step of `.sort((a, b) => a.id - b.id)`. -/
def insertById (c : ContextMessage) : List ContextMessage → List ContextMessage
  | [] => [c]
  | d :: rest => if c.id ≤ d.id then c :: d :: rest else d :: insertById c rest

/-- Sort context messages by message id ascending
(`.sort((a, b) => a.id - b.id)`, `index.js` line 405). -/
def sortById (l : List ContextMessage) : List ContextMessage :=
  l.foldr insertById []

/-- The window builder of `extractVideoCaption` (`index.js` lines
389-405): from the fetched surrounding messages (absent entries are
`none`), keep those that exist, are not the candidate itself and carry
non-empty trimmed text, annotate them, and sort by message id. -/
def buildContext (videoMessage : Message) (fetched : List (Option Message)) :
    List ContextMessage :=
  sortById (fetched.filterMap fun om =>
    match om with
    | none => none
    | some msg =>
      match msg.message with
      | none => none
      | some t =>
        if msg.id != videoMessage.id && !(jsTrim t == "") then
          some (toContextMessage videoMessage msg t)
        else none)

/-- The observable result of the OpenAI ranking call inside
`findRelevantCaption`: either the reply content or a thrown error. -/
inductive AIOutcome where
  | ok (content : String)
  | err
deriving DecidableEq, Repr

/-- The heuristic fallback of `findRelevantCaption` (`index.js` lines
511-514 and 521-524): the first window entry from the candidate's
sender within 300 seconds, or the empty string. -/
def fallbackCaption (videoMessage : Message)
    (contextMessages : List ContextMessage) : String :=
  match contextMessages.find? (fun msg =>
      msg.senderId == videoMessage.senderId && decide (msg.timeDiff < 300)) with
  | some msg => msg.text
  | none => ""

/-- The validation test of `findRelevantCaption` (`index.js` lines
494-499): the AI reply matches a window entry exactly or by substring
containment in either direction. -/
def matchesEntry (aiResponse : String) (msg : ContextMessage) : Bool :=
  msg.text == aiResponse || strIncludes msg.text aiResponse ||
    strIncludes aiResponse msg.text

/-- `findRelevantCaption` (`index.js` lines 435-526): empty window gives
the empty string; a thrown ranking call falls back to the heuristic;
otherwise the trimmed, quote-stripped reply is returned when it is not
the `NONE` sentinel, not empty, and validates against some window
entry, and the heuristic fallback is used when validation fails. -/
def findRelevantCaption (videoMessage : Message)
    (contextMessages : List ContextMessage) (ai : AIOutcome) : String :=
  if contextMessages.isEmpty then ""
  else
    match ai with
    | .err => fallbackCaption videoMessage contextMessages
    | .ok content =>
      let aiResponse := stripQuotes (jsTrim content)
      if aiResponse == "NONE" || aiResponse == "" then ""
      else if (contextMessages.find? (matchesEntry aiResponse)).isSome then
        aiResponse
      else fallbackCaption videoMessage contextMessages

/-- The own-text test of `extractVideoCaption` (`index.js` line 361):
`videoMessage.message && videoMessage.message.trim()`. -/
def hasOwnText (videoMessage : Message) : Bool :=
  match videoMessage.message with
  | some t => !(jsTrim t == "")
  | none => false

/-- The candidate's own trimmed text. -/
def ownText (videoMessage : Message) : String :=
  jsTrim (videoMessage.message.getD "")

/-- `extractVideoCaption` (`index.js` lines 357-433): return the
candidate's own trimmed text when present; otherwise build the context
window from the fetched surrounding messages (a failed fetch yields the
empty string) and delegate to `findRelevantCaption`; an empty window
also yields the empty string. -/
def extractVideoCaption (videoMessage : Message)
    (fetch : Except Unit (List (Option Message))) (ai : AIOutcome) : String :=
  if hasOwnText videoMessage then ownText videoMessage
  else
    match fetch with
    | .error _ => ""
    | .ok fetched =>
      let contextMessages := buildContext videoMessage fetched
      if contextMessages.isEmpty then ""
      else findRelevantCaption videoMessage contextMessages ai

/-! ### Failure classification -/

/-- A publish-step error as the classifier observes it: the error
message and the optional status-code-like `code` field. -/
structure UploadError where
  message : String
  code : Option Int
deriving DecidableEq, Repr

/-- The failure-reason chain of `run` (`index.js` lines 731-756),
transliterated branch for branch. -/
def classifyFailure (e : UploadError) : String :=
  if strIncludes e.message "video longer than" then
    "Video too long (>2 minutes)"
  else if strIncludes e.message "Forbidden" || e.code == some 403 then
    "Twitter API forbidden (video restrictions)"
  else if strIncludes e.message "too large" || strIncludes e.message "file size" then
    "Video file too large"
  else if strIncludes e.message "format" || strIncludes e.message "codec" then
    "Unsupported video format"
  else if e.code == some 429 then
    "Rate limit exceeded"
  else
    match e.code with
    | some c =>
      if 400 ≤ c ∧ c < 500 then "Client error: " ++ toString c
      else if 500 ≤ c then "Server error: " ++ toString c
      else "Unknown upload error"
    | none => "Unknown upload error"

/-- The failure-handling step of `run` (`index.js` lines 727-760):
classify the error and append the failure record for the candidate's
fingerprint. -/
def handleUploadFailure (failedVideos : List FailedEntry)
    (videoId timestamp : String) (e : UploadError) : List FailedEntry :=
  addFailedVideo failedVideos videoId (classifyFailure e) timestamp
    (some e.message)

/-- The closed taxonomy of §4.6 of the specification. -/
inductive ReasonCategory where
  | durationExceeded
  | sizeExceeded
  | forbidden
  | unsupportedFormat
  | rateLimited
  | clientError (code : Int)
  | serverError (code : Int)
  | unknown
deriving DecidableEq, Repr

/-- Condition for duration-exceeded (message substring test of the
code). -/
def durationCond (e : UploadError) : Bool :=
  strIncludes e.message "video longer than"

/-- Condition for forbidden/permission. -/
def forbiddenCond (e : UploadError) : Bool :=
  strIncludes e.message "Forbidden" || e.code == some 403

/-- Condition for size-exceeded. -/
def sizeCond (e : UploadError) : Bool :=
  strIncludes e.message "too large" || strIncludes e.message "file size"

/-- Condition for unsupported-format. -/
def formatCond (e : UploadError) : Bool :=
  strIncludes e.message "format" || strIncludes e.message "codec"

/-- Modelled from the spec: the Failure Classifier of §4.6 with the
spec's stated priority order — duration-exceeded, size-exceeded,
forbidden/permission, unsupported-format, rate-limited, generic 4xx,
generic 5xx, unknown.  The individual condition tests are the code's
(the spec defers the matching rules to the collaborator's error text);
only the order is taken from the spec's words. -/
def specClassify (e : UploadError) : ReasonCategory :=
  if durationCond e then .durationExceeded
  else if sizeCond e then .sizeExceeded
  else if forbiddenCond e then .forbidden
  else if formatCond e then .unsupportedFormat
  else if e.code == some 429 then .rateLimited
  else
    match e.code with
    | some c =>
      if 400 ≤ c ∧ c < 500 then .clientError c
      else if 500 ≤ c then .serverError c
      else .unknown
    | none => .unknown

/-- The classifier taxonomy in the order the code actually checks:
duration-exceeded, forbidden/permission, size-exceeded,
unsupported-format, rate-limited, generic 4xx, generic 5xx, unknown. -/
def specClassifyAmended (e : UploadError) : ReasonCategory :=
  if durationCond e then .durationExceeded
  else if forbiddenCond e then .forbidden
  else if sizeCond e then .sizeExceeded
  else if formatCond e then .unsupportedFormat
  else if e.code == some 429 then .rateLimited
  else
    match e.code with
    | some c =>
      if 400 ≤ c ∧ c < 500 then .clientError c
      else if 500 ≤ c then .serverError c
      else .unknown
    | none => .unknown

/-- The reason string the code stores for each taxonomy category. -/
def catString : ReasonCategory → String
  | .durationExceeded => "Video too long (>2 minutes)"
  | .sizeExceeded => "Video file too large"
  | .forbidden => "Twitter API forbidden (video restrictions)"
  | .unsupportedFormat => "Unsupported video format"
  | .rateLimited => "Rate limit exceeded"
  | .clientError c => "Client error: " ++ toString c
  | .serverError c => "Server error: " ++ toString c
  | .unknown => "Unknown upload error"

/-! ### Helper lemmas -/

/-- A successful `find?` splits the list at the found element: the
element satisfies the predicate and everything before it does not. -/
theorem find_first_split {α : Type} (p : α → Bool) (l : List α) (a : α)
    (h : l.find? p = some a) :
    p a = true ∧ ∃ pre post, l = pre ++ a :: post ∧ ∀ x ∈ pre, p x = false := by
  induction l with
  | nil => simp [List.find?] at h
  | cons b t ih =>
    by_cases hb : p b = true
    · rw [List.find?_cons_of_pos _ hb] at h
      injection h with h
      subst h
      exact ⟨hb, [], t, rfl, by simp⟩
    · rw [List.find?_cons_of_neg _ hb] at h
      obtain ⟨hpa, pre, post, hsplit, hpre⟩ := ih h
      refine ⟨hpa, b :: pre, post, by rw [hsplit]; rfl, ?_⟩
      intro x hx
      rcases List.mem_cons.mp hx with rfl | hx
      · exact Bool.eq_false_iff.mpr hb
      · exact hpre x hx

/-- A non-empty heuristic fallback result is the text of some window
entry. -/
theorem fallback_mem (m : Message) (ctx : List ContextMessage)
    (h : fallbackCaption m ctx ≠ "") :
    ∃ c ∈ ctx, fallbackCaption m ctx = c.text := by
  unfold fallbackCaption at h ⊢
  cases hf : ctx.find? (fun msg =>
      msg.senderId == m.senderId && decide (msg.timeDiff < 300)) with
  | none => rw [hf] at h; exact absurd rfl h
  | some c => exact ⟨c, List.mem_of_find?_eq_some hf, rfl⟩

/-- Characterization of the heuristic fallback: either it returns the
text of the first window entry from the candidate's sender within 300
seconds, or no such entry exists and it returns the empty string. -/
theorem fallback_spec (m : Message) (ctx : List ContextMessage) :
    (∃ pre c post, ctx = pre ++ c :: post ∧
        (∀ x ∈ pre, ¬(x.senderId = m.senderId ∧ x.timeDiff < 300)) ∧
        c.senderId = m.senderId ∧ c.timeDiff < 300 ∧
        fallbackCaption m ctx = c.text) ∨
    ((∀ c ∈ ctx, ¬(c.senderId = m.senderId ∧ c.timeDiff < 300)) ∧
        fallbackCaption m ctx = "") := by
  unfold fallbackCaption
  cases hf : ctx.find? (fun msg =>
      msg.senderId == m.senderId && decide (msg.timeDiff < 300)) with
  | some c =>
    left
    obtain ⟨hp, pre, post, hsplit, hpre⟩ := find_first_split _ _ _ hf
    simp only [Bool.and_eq_true, beq_iff_eq, decide_eq_true_iff] at hp
    refine ⟨pre, c, post, hsplit, ?_, hp.1, hp.2, rfl⟩
    intro x hx hcontra
    have := hpre x hx
    simp [hcontra.1, hcontra.2] at this
  | none =>
    right
    refine ⟨?_, rfl⟩
    intro c hc hcontra
    have := List.find?_eq_none.mp hf c hc
    simp [hcontra.1, hcontra.2] at this

/-! ### Claims -/

/-- C3: for every message — including ones with missing peer
identifier, missing video object, missing size or duration — the
fingerprint function `generateVideoId` is total (a Lean function, it
cannot throw) and deterministic, a missing peer identifier is replaced
by the sentinel `"unknown"`, and a missing video object makes the size
and duration components the sentinel `0`. -/
theorem c3_fingerprint_deterministic_sentinels :
    (∀ m₁ m₂ : Message, m₁ = m₂ → generateVideoId m₁ = generateVideoId m₂) ∧
    (∀ m : Message, m.peerId = none →
      generateVideoId m = "unknown" ++ "_" ++ toString m.id ++ "_" ++
        toString m.date ++ "_" ++ toString (videoSizeOf m) ++ "_" ++
        toString (videoDurationOf m)) ∧
    (∀ m : Message, m.video = none →
      generateVideoId m = peerIdStrOf m ++ "_" ++ toString m.id ++ "_" ++
        toString m.date ++ "_" ++ toString (0 : Nat) ++ "_" ++
        toString (0 : Nat)) := by
  refine ⟨fun m₁ m₂ h => by rw [h], ?_, ?_⟩
  · intro m h
    obtain ⟨p, mid, mdate, v, mtext, msid⟩ := m
    cases h
    rfl
  · intro m h
    obtain ⟨p, mid, mdate, v, mtext, msid⟩ := m
    cases h
    rfl

/-- Witness for C3 at a concrete message with no peer identifier and no
video object. -/
theorem c3_witness :
    generateVideoId (Message.mk none 5 99 none none none) =
      "unknown" ++ "_" ++ toString (5 : Int) ++ "_" ++ toString (99 : Int) ++
        "_" ++ toString (videoSizeOf (Message.mk none 5 99 none none none)) ++
        "_" ++ toString (videoDurationOf (Message.mk none 5 99 none none none)) :=
  c3_fingerprint_deterministic_sentinels.2.1 (Message.mk none 5 99 none none none) rfl

/-- C10: the sentinel substitution conflates absence with zero — two
messages that agree on peer identifier, message id and date, one with
no video object at all and the other with a video of size 0 and
duration 0, receive the identical fingerprint. -/
theorem c10_sentinel_collision (m₁ m₂ : Message)
    (hp : m₁.peerId = m₂.peerId) (hi : m₁.id = m₂.id) (hd : m₁.date = m₂.date)
    (hv₁ : m₁.video = none) (hv₂ : m₂.video = some (VideoMeta.mk 0 0)) :
    generateVideoId m₁ = generateVideoId m₂ := by
  obtain ⟨p₁, i₁, d₁, v₁, t₁, s₁⟩ := m₁
  obtain ⟨p₂, i₂, d₂, v₂, t₂, s₂⟩ := m₂
  simp only at hp hi hd hv₁ hv₂
  subst hp hi hd hv₁ hv₂
  rfl

/-- Witness for C10: two distinct concrete messages that collide. -/
theorem c10_witness :
    Message.mk none 1 2 none none none ≠
      Message.mk none 1 2 (some (VideoMeta.mk 0 0)) none none ∧
    generateVideoId (Message.mk none 1 2 none none none) =
      generateVideoId (Message.mk none 1 2 (some (VideoMeta.mk 0 0)) none none) :=
  ⟨by decide,
    c10_sentinel_collision (Message.mk none 1 2 none none none)
      (Message.mk none 1 2 (some (VideoMeta.mk 0 0)) none none)
      rfl rfl rfl rfl rfl⟩

/-- C9: loading a legacy-format file (bare array of identifiers) yields
exactly the same in-memory set membership as loading the
structured-format file whose `videos` field holds the same identifiers,
for both the processed set and the failed set (and in particular the
same `isVideoFailed` verdicts). -/
theorem c9_legacy_structured_same_membership (ids : List String)
    (lu₁ lu₂ : String) (t₁ t₂ : Nat) (x : String) (e : FailedEntry) :
    (x ∈ loadProcessedVideos (some (StoredFile.legacyArr ids)) ↔
      x ∈ loadProcessedVideos (some (StoredFile.structured lu₁ t₁ (some ids)))) ∧
    (e ∈ loadFailedVideos (some (StoredFile.legacyArr (ids.map FailedEntry.legacy))) ↔
      e ∈ loadFailedVideos
        (some (StoredFile.structured lu₂ t₂ (some (ids.map FailedEntry.legacy))))) ∧
    isVideoFailed
        (loadFailedVideos (some (StoredFile.legacyArr (ids.map FailedEntry.legacy)))) x =
      isVideoFailed
        (loadFailedVideos
          (some (StoredFile.structured lu₂ t₂ (some (ids.map FailedEntry.legacy))))) x :=
  ⟨Iff.rfl, Iff.rfl, rfl⟩

/-- C8: `isVideoFailed` reports a fingerprint as failed both when the
failed set contains it as a legacy bare entry and when it contains a
structured record whose `videoId` field equals it, in any mixture of
the two encodings. -/
theorem c8_both_encodings_detected (fp : String)
    (failedVideos : List FailedEntry)
    (h : FailedEntry.legacy fp ∈ failedVideos ∨
      ∃ r ts e, FailedEntry.record fp r ts e ∈ failedVideos) :
    isVideoFailed failedVideos fp = true := by
  unfold isVideoFailed
  rcases h with h | ⟨r, ts, e, h⟩
  · exact List.any_eq_true.mpr ⟨_, h, by simp [entryMatches]⟩
  · exact List.any_eq_true.mpr ⟨_, h, by simp [entryMatches]⟩

/-- Witness for C8 on a concrete set mixing both encodings. -/
theorem c8_witness :
    isVideoFailed
        [FailedEntry.record "a_1_1_0_0" "reason" "ts" none,
          FailedEntry.legacy "b_2_2_0_0"] "b_2_2_0_0" = true ∧
    isVideoFailed
        [FailedEntry.record "a_1_1_0_0" "reason" "ts" none,
          FailedEntry.legacy "b_2_2_0_0"] "a_1_1_0_0" = true :=
  ⟨c8_both_encodings_detected "b_2_2_0_0" _ (Or.inl (by simp)),
    c8_both_encodings_detected "a_1_1_0_0" _
      (Or.inr ⟨"reason", "ts", none, by simp⟩)⟩

/-- C1: the batch scanner never returns a candidate whose fingerprint
is in the processed set or the failed set, and the candidate it returns
is the first one in page order whose fingerprint is in neither set. -/
theorem c1_scanner_returns_first_unresolved (st : ScanState)
    (page : List Message) (m : Message)
    (h : (findOldestUnprocessedVideo st page).1 = some m) :
    (st.processedVideos.contains (generateVideoId m) = false ∧
      isVideoFailed st.failedVideos (generateVideoId m) = false) ∧
    ∃ pre post, page = pre ++ m :: post ∧
      ∀ x ∈ pre, st.processedVideos.contains (generateVideoId x) = true ∨
        isVideoFailed st.failedVideos (generateVideoId x) = true := by
  unfold findOldestUnprocessedVideo at h
  cases hf : page.find? (isUnresolved st) with
  | none => rw [hf] at h; exact absurd h (by simp)
  | some a =>
    rw [hf] at h
    injection h with h
    subst h
    obtain ⟨hp, pre, post, hsplit, hpre⟩ := find_first_split _ _ _ hf
    constructor
    · simp only [isUnresolved, Bool.and_eq_true, Bool.not_eq_true'] at hp
      exact hp
    · refine ⟨pre, post, hsplit, ?_⟩
      intro x hx
      have hx' := hpre x hx
      simp only [isUnresolved] at hx'
      cases hc : st.processedVideos.contains (generateVideoId x) with
      | true => exact Or.inl rfl
      | false =>
        cases hd : isVideoFailed st.failedVideos (generateVideoId x) with
        | true => exact Or.inr rfl
        | false => rw [hc, hd] at hx'; simp at hx'

/-- Witness for C1 on a one-element page with empty state. -/
theorem c1_witness :
    ((ScanState.mk [] [] 0).processedVideos.contains
        (generateVideoId (Message.mk none 1 100 none none none)) = false ∧
      isVideoFailed (ScanState.mk [] [] 0).failedVideos
        (generateVideoId (Message.mk none 1 100 none none none)) = false) ∧
    ∃ pre post,
      [Message.mk none 1 100 none none none] =
        pre ++ Message.mk none 1 100 none none none :: post ∧
      ∀ x ∈ pre,
        (ScanState.mk [] [] 0).processedVideos.contains (generateVideoId x) = true ∨
          isVideoFailed (ScanState.mk [] [] 0).failedVideos (generateVideoId x) = true :=
  c1_scanner_returns_first_unresolved (ScanState.mk [] [] 0)
    [Message.mk none 1 100 none none none]
    (Message.mk none 1 100 none none none) (by decide)

/-- C2: the cursor offset never decreases under any operation of the
engine, and when the scanner exhausts a page of size 50 with zero
unresolved candidates it returns `none` and the persisted offset
increases by exactly 50. -/
theorem c2_offset_monotone_batch_advance :
    (∀ (st : ScanState) (op : EngineOp),
      st.currentOffset ≤ (applyOp st op).currentOffset) ∧
    (∀ (st : ScanState) (page : List Message), page.length = 50 →
      (∀ m ∈ page, isUnresolved st m = false) →
      (findOldestUnprocessedVideo st page).1 = none ∧
      (findOldestUnprocessedVideo st page).2.currentOffset =
        st.currentOffset + 50) := by
  constructor
  · intro st op
    cases op with
    | scan page =>
      show st.currentOffset ≤ (findOldestUnprocessedVideo st page).2.currentOffset
      unfold findOldestUnprocessedVideo
      cases page.find? (isUnresolved st) with
      | some m => exact le_refl _
      | none => exact Nat.le_add_right _ _
    | markProcessed vid => exact le_refl _
    | markFailed vid r ts e => exact le_refl _
  · intro st page _ hall
    have hf : page.find? (isUnresolved st) = none :=
      List.find?_eq_none.mpr (fun x hx => by simp [hall x hx])
    unfold findOldestUnprocessedVideo
    rw [hf]
    exact ⟨rfl, rfl⟩

/-- Witness for C2 on a full page of 50 already-processed candidates. -/
theorem c2_witness :
    (findOldestUnprocessedVideo (ScanState.mk ["unknown_1_100_0_0"] [] 0)
        (List.replicate 50 (Message.mk none 1 100 none none none))).1 = none ∧
    (findOldestUnprocessedVideo (ScanState.mk ["unknown_1_100_0_0"] [] 0)
        (List.replicate 50 (Message.mk none 1 100 none none none))).2.currentOffset =
      (ScanState.mk ["unknown_1_100_0_0"] [] 0).currentOffset + 50 :=
  c2_offset_monotone_batch_advance.2 (ScanState.mk ["unknown_1_100_0_0"] [] 0)
    (List.replicate 50 (Message.mk none 1 100 none none none))
    (by decide) (by decide)

/-- C4 counterexample: the claim says size-exceeded has priority over
forbidden/permission, but the code checks the forbidden conditions
first.  On an error whose message contains both `"Forbidden"` and
`"too large"` the code's classifier and the spec-ordered classifier
disagree. -/
theorem c4_counterexample :
    classifyFailure (UploadError.mk "Forbidden: video too large" none) ≠
      catString (specClassify (UploadError.mk "Forbidden: video too large" none)) := by
  decide

/-- C4 (amended): the classifier assigns the first matching category in
the order duration-exceeded, forbidden/permission, size-exceeded,
unsupported-format, rate-limited, generic 4xx, generic 5xx, unknown;
an error whose message contains `"video longer than"` is classified
duration-exceeded, the failure-handling step appends a record with that
category, and the fingerprint is subsequently reported as failed. -/
theorem c4_classifier_order_and_record :
    (∀ e : UploadError, classifyFailure e = catString (specClassifyAmended e)) ∧
    (∀ (e : UploadError) (videoId ts : String)
        (failedVideos : List FailedEntry),
      strIncludes e.message "video longer than" = true →
      classifyFailure e = "Video too long (>2 minutes)" ∧
      handleUploadFailure failedVideos videoId ts e =
        FailedEntry.record videoId "Video too long (>2 minutes)" ts
          (some e.message) :: failedVideos ∧
      isVideoFailed (handleUploadFailure failedVideos videoId ts e) videoId =
        true) := by
  constructor
  · intro e
    unfold classifyFailure specClassifyAmended durationCond forbiddenCond
      sizeCond formatCond
    split_ifs <;> try rfl
    cases e.code with
    | none => rfl
    | some c =>
      simp only []
      split_ifs <;> rfl
  · intro e videoId ts failedVideos h
    have hc : classifyFailure e = "Video too long (>2 minutes)" := by
      unfold classifyFailure
      rw [h]
      rfl
    refine ⟨hc, ?_, ?_⟩
    · unfold handleUploadFailure addFailedVideo
      rw [hc]
    · unfold handleUploadFailure addFailedVideo isVideoFailed
      simp [entryMatches]

/-- Witness for C4 at a concrete duration-exceeded error. -/
theorem c4_witness :
    classifyFailure (UploadError.mk "Twitter: video longer than 140s" none) =
      "Video too long (>2 minutes)" ∧
    handleUploadFailure [] "unknown_1_2_0_0" "2024-01-01"
        (UploadError.mk "Twitter: video longer than 140s" none) =
      [FailedEntry.record "unknown_1_2_0_0" "Video too long (>2 minutes)"
        "2024-01-01" (some "Twitter: video longer than 140s")] ∧
    isVideoFailed
        (handleUploadFailure [] "unknown_1_2_0_0" "2024-01-01"
          (UploadError.mk "Twitter: video longer than 140s" none))
        "unknown_1_2_0_0" = true :=
  c4_classifier_order_and_record.2
    (UploadError.mk "Twitter: video longer than 140s" none)
    "unknown_1_2_0_0" "2024-01-01" [] (by decide)

/-- C7: a candidate whose own message text is non-empty after trimming
makes the resolver return that trimmed text directly, for every fetch
result and every ranking outcome — so neither the context window nor
the ranking call can influence the result. -/
theorem c7_own_text_short_circuit (m : Message) (t : String)
    (h : m.message = some t) (ht : jsTrim t ≠ "")
    (fetch : Except Unit (List (Option Message))) (ai : AIOutcome) :
    extractVideoCaption m fetch ai = jsTrim t := by
  have h1 : hasOwnText m = true := by
    unfold hasOwnText
    rw [h]
    simpa using ht
  unfold extractVideoCaption
  rw [h1]
  simp [ownText, h]

/-- Witness for C7: a concrete captioned candidate, with a window
available and a ranking reply present, still yields its own trimmed
text. -/
theorem c7_witness :
    extractVideoCaption (Message.mk none 3 50 none (some "  hello ") none)
        (Except.ok [some (Message.mk none 2 40 none (some "ctx") none)])
        (AIOutcome.ok "ctx") = jsTrim "  hello " :=
  c7_own_text_short_circuit (Message.mk none 3 50 none (some "  hello ") none)
    "  hello " rfl (by decide)
    (Except.ok [some (Message.mk none 2 40 none (some "ctx") none)])
    (AIOutcome.ok "ctx")

/-- The ranking call produced a reply that fails validation: it is not
the `NONE` sentinel, not empty after cleanup, and matches no window
entry. -/
def failsValidation (contextMessages : List ContextMessage)
    (ai : AIOutcome) : Prop :=
  ∃ content, ai = AIOutcome.ok content ∧
    stripQuotes (jsTrim content) ≠ "NONE" ∧
    stripQuotes (jsTrim content) ≠ "" ∧
    ∀ c ∈ contextMessages,
      matchesEntry (stripQuotes (jsTrim content)) c = false

/-- C6: for a candidate without own text and a non-empty context
window, if the ranking call throws or its reply fails validation, the
resolver returns the text of the first window entry whose sender equals
the candidate's sender and whose absolute time delta is strictly below
300 seconds, and the empty string when no such entry exists. -/
theorem c6_fallback_heuristic (m : Message) (msgs : List (Option Message))
    (ai : AIOutcome) (hown : hasOwnText m = false)
    (hne : buildContext m msgs ≠ [])
    (hfail : ai = AIOutcome.err ∨ failsValidation (buildContext m msgs) ai) :
    (∃ pre c post, buildContext m msgs = pre ++ c :: post ∧
        (∀ x ∈ pre, ¬(x.senderId = m.senderId ∧ x.timeDiff < 300)) ∧
        c.senderId = m.senderId ∧ c.timeDiff < 300 ∧
        extractVideoCaption m (Except.ok msgs) ai = c.text) ∨
    ((∀ c ∈ buildContext m msgs,
        ¬(c.senderId = m.senderId ∧ c.timeDiff < 300)) ∧
        extractVideoCaption m (Except.ok msgs) ai = "") := by
  have hie : (buildContext m msgs).isEmpty = false := by
    cases hh : buildContext m msgs with
    | nil => exact absurd hh hne
    | cons a t => rfl
  have hred : extractVideoCaption m (Except.ok msgs) ai =
      findRelevantCaption m (buildContext m msgs) ai := by
    unfold extractVideoCaption
    rw [hown]
    simp [hie]
  have hfb : findRelevantCaption m (buildContext m msgs) ai =
      fallbackCaption m (buildContext m msgs) := by
    rcases hfail with rfl | ⟨content, rfl, hn, he, hall⟩
    · unfold findRelevantCaption
      rw [hie]
      rfl
    · unfold findRelevantCaption
      rw [hie]
      have h1 : (stripQuotes (jsTrim content) == "NONE") = false :=
        beq_eq_false_iff_ne.mpr hn
      have h2 : (stripQuotes (jsTrim content) == "") = false :=
        beq_eq_false_iff_ne.mpr he
      have hfind : (buildContext m msgs).find?
          (matchesEntry (stripQuotes (jsTrim content))) = none :=
        List.find?_eq_none.mpr (fun x hx => by simp [hall x hx])
      simp [h1, h2, hfind]
  rw [hred, hfb]
  exact fallback_spec m (buildContext m msgs)

/-- Witness for C6: the spec scenario — no own caption, one window
message from the same sender 10 seconds before with text
`"look at this"`, and a ranking call that throws. -/
theorem c6_witness :
    (∃ pre c post,
      buildContext (Message.mk none 20 1000 none none (some 7))
          [some (Message.mk none 19 990 none (some "look at this") (some 7))] =
        pre ++ c :: post ∧
      (∀ x ∈ pre,
        ¬(x.senderId = (Message.mk none 20 1000 none none (some 7)).senderId ∧
          x.timeDiff < 300)) ∧
      c.senderId = (Message.mk none 20 1000 none none (some 7)).senderId ∧
      c.timeDiff < 300 ∧
      extractVideoCaption (Message.mk none 20 1000 none none (some 7))
          (Except.ok
            [some (Message.mk none 19 990 none (some "look at this") (some 7))])
          AIOutcome.err = c.text) ∨
    ((∀ c ∈ buildContext (Message.mk none 20 1000 none none (some 7))
          [some (Message.mk none 19 990 none (some "look at this") (some 7))],
        ¬(c.senderId = (Message.mk none 20 1000 none none (some 7)).senderId ∧
          c.timeDiff < 300)) ∧
      extractVideoCaption (Message.mk none 20 1000 none none (some 7))
          (Except.ok
            [some (Message.mk none 19 990 none (some "look at this") (some 7))])
          AIOutcome.err = "") :=
  c6_fallback_heuristic (Message.mk none 20 1000 none none (some 7))
    [some (Message.mk none 19 990 none (some "look at this") (some 7))]
    AIOutcome.err (by decide) (by decide) (Or.inl rfl)

/-- C5 counterexample: the validation accepts a ranking reply that
merely contains a window entry as a substring, so the resolver can
return a non-empty caption that is neither the candidate's own text nor
the text of any window entry. -/
theorem c5_counterexample :
    extractVideoCaption (Message.mk none 10 1000 none none (some 7))
        (Except.ok [some (Message.mk none 9 995 none (some "hi") (some 8))])
        (AIOutcome.ok "hi there invented") = "hi there invented" ∧
    ownText (Message.mk none 10 1000 none none (some 7)) ≠ "hi there invented" ∧
    ∀ c ∈ buildContext (Message.mk none 10 1000 none none (some 7))
        [some (Message.mk none 9 995 none (some "hi") (some 8))],
      c.text ≠ "hi there invented" := by
  decide

/-- C5 (amended): a non-empty resolver result is the candidate's own
trimmed text, or is validated against the window — it equals the text
of some window entry or is related to it by substring containment in
either direction. -/
theorem c5_no_unvalidated_content (m : Message)
    (fetch : Except Unit (List (Option Message))) (ai : AIOutcome)
    (h : extractVideoCaption m fetch ai ≠ "") :
    extractVideoCaption m fetch ai = ownText m ∨
    ∃ msgs, fetch = Except.ok msgs ∧ ∃ c ∈ buildContext m msgs,
      (c.text = extractVideoCaption m fetch ai ∨
        strIncludes c.text (extractVideoCaption m fetch ai) = true ∨
        strIncludes (extractVideoCaption m fetch ai) c.text = true) := by
  cases how : hasOwnText m with
  | true =>
    left
    unfold extractVideoCaption
    rw [how]
    rfl
  | false =>
    cases fetch with
    | error u =>
      exfalso
      apply h
      unfold extractVideoCaption
      rw [how]
      rfl
    | ok msgs =>
      right
      refine ⟨msgs, rfl, ?_⟩
      cases hie : (buildContext m msgs).isEmpty with
      | true =>
        exfalso
        apply h
        unfold extractVideoCaption
        rw [how]
        simp [hie]
      | false =>
        have hval : extractVideoCaption m (Except.ok msgs) ai =
            findRelevantCaption m (buildContext m msgs) ai := by
          unfold extractVideoCaption
          rw [how]
          simp [hie]
        rw [hval] at h ⊢
        cases ai with
        | err =>
          have hr : findRelevantCaption m (buildContext m msgs) AIOutcome.err =
              fallbackCaption m (buildContext m msgs) := by
            simp [findRelevantCaption, hie]
          rw [hr] at h ⊢
          obtain ⟨c, hc, he⟩ := fallback_mem m (buildContext m msgs) h
          exact ⟨c, hc, Or.inl he.symm⟩
        | ok content =>
          cases hcond : (stripQuotes (jsTrim content) == "NONE" ||
              stripQuotes (jsTrim content) == "") with
          | true =>
            exfalso
            apply h
            simp [findRelevantCaption, hie, hcond]
          | false =>
            cases hfind : (buildContext m msgs).find?
                (matchesEntry (stripQuotes (jsTrim content))) with
            | some c =>
              have hr : findRelevantCaption m (buildContext m msgs)
                  (AIOutcome.ok content) = stripQuotes (jsTrim content) := by
                simp [findRelevantCaption, hie, hcond, hfind]
              rw [hr] at h ⊢
              have hm := List.find?_some hfind
              unfold matchesEntry at hm
              refine ⟨c, List.mem_of_find?_eq_some hfind, ?_⟩
              rcases (Bool.or_eq_true _ _).mp hm with hab | h3
              · rcases (Bool.or_eq_true _ _).mp hab with h1 | h2
                · exact Or.inl (beq_iff_eq.mp h1)
                · exact Or.inr (Or.inl h2)
              · exact Or.inr (Or.inr h3)
            | none =>
              have hr : findRelevantCaption m (buildContext m msgs)
                  (AIOutcome.ok content) =
                  fallbackCaption m (buildContext m msgs) := by
                simp [findRelevantCaption, hie, hcond, hfind]
              rw [hr] at h ⊢
              obtain ⟨c, hc, he⟩ := fallback_mem m (buildContext m msgs) h
              exact ⟨c, hc, Or.inl he.symm⟩

/-- Witness for C5 at a candidate with its own caption. -/
theorem c5_witness :
    extractVideoCaption (Message.mk none 4 60 none (some "hello") none)
        (Except.error ()) AIOutcome.err =
      ownText (Message.mk none 4 60 none (some "hello") none) ∨
    ∃ msgs, (Except.error () : Except Unit (List (Option Message))) =
        Except.ok msgs ∧
      ∃ c ∈ buildContext (Message.mk none 4 60 none (some "hello") none) msgs,
        (c.text = extractVideoCaption
            (Message.mk none 4 60 none (some "hello") none)
            (Except.error ()) AIOutcome.err ∨
          strIncludes c.text (extractVideoCaption
            (Message.mk none 4 60 none (some "hello") none)
            (Except.error ()) AIOutcome.err) = true ∨
          strIncludes (extractVideoCaption
            (Message.mk none 4 60 none (some "hello") none)
            (Except.error ()) AIOutcome.err) c.text = true) :=
  c5_no_unvalidated_content (Message.mk none 4 60 none (some "hello") none)
    (Except.error ()) AIOutcome.err (by decide)

end TelegramToXPoster
